import Mathlib

/-!
Shallow embedding of the wearable firmware Connection & Messaging Core
(`connection_manager.cpp`, `protocol.cpp`, `ble_manager.cpp`).

Conventions:
* `uint32_t` values are `Nat` with explicit wraparound (`% 2 ^ 32`) where the
  C arithmetic can wrap; C `int` is `Int`.
* `millis()` is threaded as an explicit `now : Nat` argument (one tick reads
  it once; helper calls inside the same tick observe the same value).
* The four function-pointer lifecycle callbacks are modelled as a list of
  emitted `ConnEvent`s: an event in the list means the corresponding callback
  is invoked at that point when registered.
-/

/-- The `enum ConnectionState` from `connection_manager.h`. -/
inductive ConnState where
  | disconnected
  | advertising
  | connecting
  | connected
  | reconnecting
  | error
deriving DecidableEq

/-- Lifecycle callback invocations (`onConnected` / `onDisconnected` /
`onReconnecting` / `onConnectionFailed` function pointers). -/
inductive ConnEvent where
  | evConnected
  | evDisconnected
  | evReconnecting
  | evConnectionFailed
deriving DecidableEq

/-- The private fields of `class ConnectionManager`. -/
structure CMState where
  currentState : ConnState
  lastConnectionAttempt : Nat
  reconnectInterval : Nat
  maxReconnectInterval : Nat
  connectionTimeout : Nat
  lastHeartbeat : Nat
  heartbeatInterval : Nat
  heartbeatTimeout : Nat
  reconnectAttempts : Int
  maxReconnectAttempts : Int
deriving DecidableEq

/-- The `uint32_t` subtraction `a - b` with wraparound, as used in all the
`millis() - last...` comparisons. -/
def usub32 (a b : Nat) : Nat :=
  (2 ^ 32 + a % 2 ^ 32 - b % 2 ^ 32) % 2 ^ 32

/-- Field initialisation done by the `ConnectionManager` constructor. -/
def initCMState : CMState :=
  { currentState := ConnState.disconnected
    lastConnectionAttempt := 0
    reconnectInterval := 1000
    maxReconnectInterval := 30000
    connectionTimeout := 10000
    lastHeartbeat := 0
    heartbeatInterval := 30000
    heartbeatTimeout := 60000
    reconnectAttempts := 0
    maxReconnectAttempts := 10 }

/-- The `ConnectionManager::resetReconnectInterval`. -/
def resetReconnectInterval (s : CMState) : CMState :=
  { s with reconnectInterval := 1000 }

/-- The `ConnectionManager::updateHeartbeat` (`lastHeartbeat = millis()`). -/
def updateHeartbeat (now : Nat) (s : CMState) : CMState :=
  { s with lastHeartbeat := now }

/-- The `ConnectionManager::incrementReconnectInterval`:
`reconnectInterval = min(reconnectInterval * 2, maxReconnectInterval)` in
`uint32_t` arithmetic. -/
def incrementReconnectInterval (s : CMState) : CMState :=
  { s with reconnectInterval := min (s.reconnectInterval * 2 % 2 ^ 32) s.maxReconnectInterval }

/-- The `ConnectionManager::isHeartbeatTimeout`. -/
def isHeartbeatTimeout (now : Nat) (s : CMState) : Bool :=
  usub32 now s.lastHeartbeat > s.heartbeatTimeout

/-- The `ConnectionManager::shouldReconnect`. -/
def shouldReconnect (now : Nat) (s : CMState) : Bool :=
  usub32 now s.lastConnectionAttempt > s.reconnectInterval

/-- The `ConnectionManager::setState`: no-op when the target equals the current
state; otherwise switches the state and runs the per-target side effects
(reset backoff / zero attempts / heartbeat refresh and `onConnected` for
`CONN_CONNECTED`; `onDisconnected` when leaving `CONN_CONNECTED` for
`CONN_DISCONNECTED`; `onReconnecting` for `CONN_RECONNECTING`). -/
def setState (now : Nat) (s : CMState) (st : ConnState) : CMState × List ConnEvent :=
  if s.currentState = st then (s, [])
  else
    let prev := s.currentState
    let s1 := { s with currentState := st }
    match st with
    | ConnState.connected =>
        (updateHeartbeat now { resetReconnectInterval s1 with reconnectAttempts := 0 },
          [ConnEvent.evConnected])
    | ConnState.disconnected =>
        (s1, if prev = ConnState.connected then [ConnEvent.evDisconnected] else [])
    | ConnState.reconnecting =>
        (s1, [ConnEvent.evReconnecting])
    | _ => (s1, [])

/-- The `ConnectionManager::update`: one tick of the state machine at time `now`.
`startAdvertising()` inside the `CONN_RECONNECTING` branch sets
`lastConnectionAttempt = millis()`, and the branch then overwrites it with
`currentTime` again; both are `now` here. -/
def update (now : Nat) (s : CMState) : CMState × List ConnEvent :=
  match s.currentState with
  | ConnState.disconnected =>
      if shouldReconnect now s then setState now s ConnState.reconnecting else (s, [])
  | ConnState.advertising =>
      if usub32 now s.lastConnectionAttempt > s.connectionTimeout then
        setState now s ConnState.reconnecting
      else (s, [])
  | ConnState.connecting =>
      if usub32 now s.lastConnectionAttempt > s.connectionTimeout then
        setState now s ConnState.reconnecting
      else (s, [])
  | ConnState.connected =>
      if isHeartbeatTimeout now s then setState now s ConnState.disconnected else (s, [])
  | ConnState.reconnecting =>
      if usub32 now s.lastConnectionAttempt > s.reconnectInterval then
        if s.reconnectAttempts < s.maxReconnectAttempts then
          let s1 := { s with lastConnectionAttempt := now }
          let s2 := incrementReconnectInterval
            { s1 with reconnectAttempts := s1.reconnectAttempts + 1 }
          let s3 := { s2 with lastConnectionAttempt := now }
          setState now s3 ConnState.advertising
        else
          let r := setState now s ConnState.error
          (r.1, r.2 ++ [ConnEvent.evConnectionFailed])
      else (s, [])
  | ConnState.error => (s, [])

/-- The `ConnectionManager::disconnect`. -/
def disconnect (now : Nat) (s : CMState) : CMState × List ConnEvent :=
  setState now s ConnState.disconnected

/-- The `ConnectionManager::reconnect`. -/
def reconnect (now : Nat) (s : CMState) : CMState × List ConnEvent :=
  setState now (resetReconnectInterval { s with reconnectAttempts := 0 })
    ConnState.reconnecting

theorem usub32_of_le (a b : Nat) (hb : b ≤ a) (ha : a < 2 ^ 32) :
    usub32 a b = a - b := by
  unfold usub32
  rw [Nat.mod_eq_of_lt (lt_of_le_of_lt hb ha), Nat.mod_eq_of_lt ha]
  omega

/-- C1 (amended): in `Reconnecting` with `reconnectAttempts ≥ maxReconnectAttempts`,
the first tick at which the backoff interval has elapsed
(`now - lastConnectionAttempt > reconnectInterval` in `uint32` arithmetic) moves
the state to `Error` and emits the connection-failed notification; a tick before
that leaves the machine unchanged in `Reconnecting`; and from `Error` every
further tick leaves the whole state unchanged, so the state stays `Error` absent
an explicit external reset. -/
theorem reconnect_exhaustion_error_terminal (now : Nat) (s : CMState)
    (hs : s.currentState = ConnState.reconnecting)
    (hmax : s.maxReconnectAttempts ≤ s.reconnectAttempts) :
    (s.reconnectInterval < usub32 now s.lastConnectionAttempt →
        (update now s).1.currentState = ConnState.error ∧
        (update now s).2 = [ConnEvent.evConnectionFailed]) ∧
    (¬ s.reconnectInterval < usub32 now s.lastConnectionAttempt →
        update now s = (s, [])) ∧
    (∀ (n : Nat) (t : CMState), t.currentState = ConnState.error → update n t = (t, [])) := by
  obtain ⟨cs, lca, ri, mri, ct, lh, hi, ht, ra, mra⟩ := s
  dsimp only at hs hmax
  subst hs
  refine ⟨fun h => ?_, fun h => ?_, fun n t htt => ?_⟩
  · have hlt : ¬ ra < mra := by omega
    simp [update, if_pos h, if_neg hlt, setState]
  · simp [update, if_neg h]
  · obtain ⟨cs2, lca2, ri2, mri2, ct2, lh2, hi2, ht2, ra2, mra2⟩ := t
    dsimp only at htt
    subst htt
    rfl

theorem reconnect_exhaustion_error_terminal_witness :
    (update 2000 { initCMState with
        currentState := ConnState.reconnecting, reconnectAttempts := 10 }).1.currentState
      = ConnState.error :=
  ((reconnect_exhaustion_error_terminal 2000
      { initCMState with currentState := ConnState.reconnecting, reconnectAttempts := 10 }
      rfl (by decide)).1 (by decide)).1

/-- C1 counterexample: with `reconnectAttempts = maxReconnectAttempts = 10` in
`Reconnecting`, a tick at which the backoff interval has not yet elapsed
(`now - lastConnectionAttempt = 500 ≤ 1000 = reconnectInterval`) leaves the
state in `Reconnecting`, not `Error` — so "the next update() tick moves the
state to Error" fails as stated. -/
theorem reconnect_exhaustion_not_immediate :
    (update 500 { initCMState with
        currentState := ConnState.reconnecting, reconnectAttempts := 10 }).1.currentState
      = ConnState.reconnecting ∧
    ConnState.reconnecting ≠ ConnState.error := by decide

/-- C2: on a `Reconnecting → Advertising` tick (a failed connection attempt,
i.e. the backoff elapsed and attempts remain) the reconnect interval becomes
`min(previous * 2, maxReconnectInterval)`, so under the invariant
`reconnectInterval ≤ maxReconnectInterval` it is non-decreasing and stays
capped at `maxReconnectInterval`; and every transition into `Connected` resets
the interval to its initial 1000 ms. The bound `maxReconnectInterval < 2^31`
(default 30000) rules out `uint32` overflow of `reconnectInterval * 2`. -/
theorem backoff_doubles_capped_resets (now : Nat) (s : CMState)
    (hs : s.currentState = ConnState.reconnecting)
    (helap : s.reconnectInterval < usub32 now s.lastConnectionAttempt)
    (hatt : s.reconnectAttempts < s.maxReconnectAttempts)
    (hinv : s.reconnectInterval ≤ s.maxReconnectInterval)
    (hmax : s.maxReconnectInterval < 2 ^ 31) :
    ((update now s).1.currentState = ConnState.advertising ∧
      (update now s).1.reconnectInterval
        = min (s.reconnectInterval * 2) s.maxReconnectInterval ∧
      s.reconnectInterval ≤ (update now s).1.reconnectInterval ∧
      (update now s).1.reconnectInterval ≤ s.maxReconnectInterval) ∧
    (∀ (n : Nat) (t : CMState), t.currentState ≠ ConnState.connected →
      (setState n t ConnState.connected).1.reconnectInterval = 1000) := by
  obtain ⟨cs, lca, ri, mri, ct, lh, hi, ht, ra, mra⟩ := s
  dsimp only at hs helap hatt hinv hmax
  subst hs
  constructor
  · have hwrap : ri * 2 % 2 ^ 32 = ri * 2 := Nat.mod_eq_of_lt (by omega)
    simp [update, if_pos helap, if_pos hatt, incrementReconnectInterval, setState, hwrap]
    omega
  · intro n t htt
    obtain ⟨cs2, lca2, ri2, mri2, ct2, lh2, hi2, ht2, ra2, mra2⟩ := t
    dsimp only at htt
    simp [setState, if_neg htt, resetReconnectInterval, updateHeartbeat]

theorem backoff_doubles_capped_resets_witness :
    (update 2000 { initCMState with
        currentState := ConnState.reconnecting }).1.reconnectInterval
      = min (1000 * 2) 30000 :=
  ((backoff_doubles_capped_resets 2000
      { initCMState with currentState := ConnState.reconnecting }
      rfl (by decide) (by decide) (by decide) (by decide)).1).2.1

/-- C3: when the state is `Connected` and the heartbeat timeout is exceeded
(`now - lastHeartbeat > heartbeatTimeout` in `uint32` arithmetic), the tick
moves the state to `Disconnected` and the event list of that tick is exactly
`[evDisconnected]` — the disconnected notification fires exactly once per
such transition. -/
theorem heartbeat_timeout_single_disconnect (now : Nat) (s : CMState)
    (hs : s.currentState = ConnState.connected)
    (hto : s.heartbeatTimeout < usub32 now s.lastHeartbeat) :
    (update now s).1.currentState = ConnState.disconnected ∧
    (update now s).2 = [ConnEvent.evDisconnected] := by
  obtain ⟨cs, lca, ri, mri, ct, lh, hi, ht, ra, mra⟩ := s
  dsimp only at hs hto
  subst hs
  simp [update, isHeartbeatTimeout, setState, hto]

theorem heartbeat_timeout_single_disconnect_witness :
    (update 70000 { initCMState with
        currentState := ConnState.connected }).2 = [ConnEvent.evDisconnected] :=
  (heartbeat_timeout_single_disconnect 70000
      { initCMState with currentState := ConnState.connected } rfl (by decide)).2

/-- C9 (amended): from every state, `disconnect()` moves the state to
`Disconnected` and changes no other field; its only side effect is that when
the previous state was `Connected` the `onDisconnected` notification fires
(from any other state there is no notification). -/
theorem disconnect_only_sets_disconnected (now : Nat) (s : CMState) :
    (disconnect now s).1 = { s with currentState := ConnState.disconnected } ∧
    (disconnect now s).2
      = (if s.currentState = ConnState.connected then [ConnEvent.evDisconnected] else []) := by
  obtain ⟨cs, lca, ri, mri, ct, lh, hi, ht, ra, mra⟩ := s
  cases cs <;> simp [disconnect, setState]

/-- C9 counterexample: a `disconnect()` request issued while `Connected` does
invoke the `onDisconnected` notification callback, refuting the claimed
side effect "none". -/
theorem disconnect_from_connected_notifies :
    (disconnect 0 { initCMState with currentState := ConnState.connected }).2
      = [ConnEvent.evDisconnected] ∧
    ([ConnEvent.evDisconnected] : List ConnEvent) ≠ [] := by decide

/-!
Protocol (`protocol.cpp`). Messages are `DynamicJsonDocument`s; we model the
document level directly. `serializeJson`/`deserializeJson` (the ArduinoJson
string layer, a third-party library) are treated as mutually inverse on
documents, so a created or extracted payload document stands for its
serialized text. Field order matches the insertion order of the source.
-/

/-- A JSON document value (the fragment the firmware uses: null, strings,
integers, objects). The battery voltage float is carried as an opaque
environment-supplied `Json` value. -/
inductive Json where
  | null : Json
  | str : String → Json
  | num : Int → Json
  | obj : List (String × Json) → Json

/-- First-match member lookup in the field list of an object
(`doc["key"]` on an object). -/
def lookupField : List (String × Json) → String → Json
  | [], _ => Json.null
  | (k, v) :: rest, key => if k = key then v else lookupField rest key

/-- The `doc["key"]` read access: member lookup on objects, null on anything else
(ArduinoJson yields a null variant there). -/
def Json.getMember : Json → String → Json
  | Json.obj fields, key => lookupField fields key
  | _, _ => Json.null

/-- ArduinoJson `as<String>()` on the variants we model: a string yields
itself, null yields "null", a number its decimal text; on an object the
conversion never yields a protocol keyword string, modelled
as "". -/
def Json.asString : Json → String
  | Json.str s => s
  | Json.null => "null"
  | Json.num n => toString n
  | Json.obj _ => ""

/-- The `doc.remove("key")` (used by `parseMessage` to strip `type`). -/
def Json.removeMember : Json → String → Json
  | Json.obj fields, key => Json.obj (fields.filter (fun p => p.1 != key))
  | j, _ => j

/-- The `doc.containsKey("key")`. -/
def Json.containsKey : Json → String → Bool
  | Json.obj fields, key => fields.any (fun p => p.1 == key)
  | _, _ => false

/-- The `enum MessageType` from `protocol.h`. -/
inductive MessageType where
  | MSG_COMMAND
  | MSG_STATUS
  | MSG_AUDIO_DATA
  | MSG_HEARTBEAT
  | MSG_ERROR
  | MSG_ACK
deriving DecidableEq

/-- The `enum CommandType` from `protocol.h`. -/
inductive CommandType where
  | CMD_START_RECORDING
  | CMD_STOP_RECORDING
  | CMD_HAPTIC_FEEDBACK
  | CMD_SET_SENSITIVITY
  | CMD_CALIBRATE
  | CMD_SLEEP
  | CMD_WAKE
  | CMD_RESET
deriving DecidableEq

/-- The `enum StatusType` from `protocol.h`. -/
inductive StatusType where
  | STATUS_READY
  | STATUS_RECORDING
  | STATUS_PROCESSING
  | STATUS_LOW_BATTERY
  | STATUS_ERROR
  | STATUS_DISCONNECTED
deriving DecidableEq

/-- The `enum ErrorCode` from `protocol.h`. -/
inductive ErrorCode where
  | ERROR_NONE
  | ERROR_AUDIO_INIT
  | ERROR_BLE_INIT
  | ERROR_HAPTIC_INIT
  | ERROR_ACCEL_INIT
  | ERROR_LOW_MEMORY
  | ERROR_INVALID_COMMAND
  | ERROR_TIMEOUT
deriving DecidableEq

/-- The numeric values assigned to `enum ErrorCode`. -/
def errorCodeToInt : ErrorCode → Int
  | ErrorCode.ERROR_NONE => 0
  | ErrorCode.ERROR_AUDIO_INIT => 1
  | ErrorCode.ERROR_BLE_INIT => 2
  | ErrorCode.ERROR_HAPTIC_INIT => 3
  | ErrorCode.ERROR_ACCEL_INIT => 4
  | ErrorCode.ERROR_LOW_MEMORY => 5
  | ErrorCode.ERROR_INVALID_COMMAND => 6
  | ErrorCode.ERROR_TIMEOUT => 7

/-- Per-call environment reads used while building a message:
`generateMessageId()`, `getTimestamp()` (`millis()`), `getBatteryVoltage()`
(a float, carried opaquely), and the heartbeat gauges `millis()` /
`ESP.getFreeHeap()`. -/
structure ProtoEnv where
  msgId : String
  timestamp : Nat
  battery : Json
  uptime : Nat
  freeHeap : Nat

/-- The `Protocol::createCommandMessage`. -/
def createCommandMessage (env : ProtoEnv) (command : String) (data : String) : Json :=
  Json.obj ([("type", Json.str "command"), ("id", Json.str env.msgId),
    ("timestamp", Json.num env.timestamp), ("command", Json.str command),
    ("battery", env.battery)]
    ++ (if data.length > 0 then [("data", Json.str data)] else []))

/-- The status-to-string switch in `Protocol::createStatusMessage` (the
`default: "unknown"` arm is unreachable for the six-valued enum). -/
def statusToString : StatusType → String
  | StatusType.STATUS_READY => "ready"
  | StatusType.STATUS_RECORDING => "recording"
  | StatusType.STATUS_PROCESSING => "processing"
  | StatusType.STATUS_LOW_BATTERY => "low_battery"
  | StatusType.STATUS_ERROR => "error"
  | StatusType.STATUS_DISCONNECTED => "disconnected"

/-- The `Protocol::createStatusMessage`. -/
def createStatusMessage (env : ProtoEnv) (status : StatusType) (data : String) : Json :=
  Json.obj ([("type", Json.str "status"), ("id", Json.str env.msgId),
    ("timestamp", Json.num env.timestamp), ("battery", env.battery),
    ("status", Json.str (statusToString status))]
    ++ (if data.length > 0 then [("data", Json.str data)] else []))

/-- The default error descriptions of `Protocol::createErrorMessage`
(`ERROR_NONE` falls into the `default` arm). -/
def defaultErrorDescription : ErrorCode → String
  | ErrorCode.ERROR_AUDIO_INIT => "Failed to initialize audio system"
  | ErrorCode.ERROR_BLE_INIT => "Failed to initialize Bluetooth"
  | ErrorCode.ERROR_HAPTIC_INIT => "Failed to initialize haptic feedback"
  | ErrorCode.ERROR_ACCEL_INIT => "Failed to initialize accelerometer"
  | ErrorCode.ERROR_LOW_MEMORY => "Insufficient memory available"
  | ErrorCode.ERROR_INVALID_COMMAND => "Invalid command received"
  | ErrorCode.ERROR_TIMEOUT => "Operation timed out"
  | ErrorCode.ERROR_NONE => "Unknown error"

/-- The description `Protocol::createErrorMessage` embeds: the text given by the caller
when non-empty, else the default for the code. -/
def errorDescription (error : ErrorCode) (description : String) : String :=
  if description.length > 0 then description else defaultErrorDescription error

/-- The `Protocol::createErrorMessage`. -/
def createErrorMessage (env : ProtoEnv) (error : ErrorCode) (description : String) : Json :=
  Json.obj [("type", Json.str "error"), ("id", Json.str env.msgId),
    ("timestamp", Json.num env.timestamp), ("error_code", Json.num (errorCodeToInt error)),
    ("battery", env.battery), ("description", Json.str (errorDescription error description))]

/-- The `Protocol::createHeartbeatMessage`. -/
def createHeartbeatMessage (env : ProtoEnv) : Json :=
  Json.obj [("type", Json.str "heartbeat"), ("id", Json.str env.msgId),
    ("timestamp", Json.num env.timestamp), ("battery", env.battery),
    ("uptime", Json.num env.uptime), ("free_heap", Json.num env.freeHeap)]

/-- The `Protocol::createAckMessage`. -/
def createAckMessage (env : ProtoEnv) (messageId : String) : Json :=
  Json.obj [("type", Json.str "ack"), ("id", Json.str env.msgId),
    ("timestamp", Json.num env.timestamp), ("ack_id", Json.str messageId)]

/-- The `type`-string dispatch chain of `Protocol::parseMessage`. -/
def messageTypeFromString (typeStr : String) : Option MessageType :=
  if typeStr = "command" then some MessageType.MSG_COMMAND
  else if typeStr = "status" then some MessageType.MSG_STATUS
  else if typeStr = "audio_data" then some MessageType.MSG_AUDIO_DATA
  else if typeStr = "heartbeat" then some MessageType.MSG_HEARTBEAT
  else if typeStr = "error" then some MessageType.MSG_ERROR
  else if typeStr = "ack" then some MessageType.MSG_ACK
  else none

/-- The `Protocol::parseMessage` on an already-deserialized document: recognize
the `type` string, fail (`false`) on anything else, and hand back the document
with `type` removed as the payload. -/
def parseMessage (doc : Json) : Option (MessageType × Json) :=
  match messageTypeFromString ((doc.getMember "type").asString) with
  | some t => some (t, doc.removeMember "type")
  | none => none

/-- The `command`-string dispatch chain of `Protocol::parseCommand`. -/
def commandFromString (commandStr : String) : Option CommandType :=
  if commandStr = "start_recording" then some CommandType.CMD_START_RECORDING
  else if commandStr = "stop_recording" then some CommandType.CMD_STOP_RECORDING
  else if commandStr = "haptic_feedback" then some CommandType.CMD_HAPTIC_FEEDBACK
  else if commandStr = "set_sensitivity" then some CommandType.CMD_SET_SENSITIVITY
  else if commandStr = "calibrate" then some CommandType.CMD_CALIBRATE
  else if commandStr = "sleep" then some CommandType.CMD_SLEEP
  else if commandStr = "wake" then some CommandType.CMD_WAKE
  else if commandStr = "reset" then some CommandType.CMD_RESET
  else none

/-- The `Protocol::parseCommand` on an already-deserialized payload document. -/
def parseCommand (payload : Json) : Option (CommandType × String) :=
  match commandFromString ((payload.getMember "command").asString) with
  | some c =>
      some (c, if payload.containsKey "data" then (payload.getMember "data").asString else "")
  | none => none

/-- The `status`-string dispatch chain of `Protocol::parseStatus`. -/
def statusFromString (statusStr : String) : Option StatusType :=
  if statusStr = "ready" then some StatusType.STATUS_READY
  else if statusStr = "recording" then some StatusType.STATUS_RECORDING
  else if statusStr = "processing" then some StatusType.STATUS_PROCESSING
  else if statusStr = "low_battery" then some StatusType.STATUS_LOW_BATTERY
  else if statusStr = "error" then some StatusType.STATUS_ERROR
  else if statusStr = "disconnected" then some StatusType.STATUS_DISCONNECTED
  else none

/-- The `Protocol::parseStatus` on an already-deserialized payload document. -/
def parseStatus (payload : Json) : Option (StatusType × String) :=
  match statusFromString ((payload.getMember "status").asString) with
  | some st =>
      some (st, if payload.containsKey "data" then (payload.getMember "data").asString else "")
  | none => none

/-- The six `type` strings `parseMessage` recognizes. -/
def recognizedKinds : List String :=
  ["command", "status", "audio_data", "heartbeat", "error", "ack"]

/-- The eight `command` strings `parseCommand` recognizes. -/
def recognizedCommands : List String :=
  ["start_recording", "stop_recording", "haptic_feedback", "set_sensitivity",
    "calibrate", "sleep", "wake", "reset"]

theorem messageTypeFromString_eq_none (s : String) (h : s ∉ recognizedKinds) :
    messageTypeFromString s = none := by
  simp [recognizedKinds] at h
  obtain ⟨h1, h2, h3, h4, h5, h6⟩ := h
  simp [messageTypeFromString, h1, h2, h3, h4, h5, h6]

theorem commandFromString_eq_none (s : String) (h : s ∉ recognizedCommands) :
    commandFromString s = none := by
  simp [recognizedCommands] at h
  obtain ⟨h1, h2, h3, h4, h5, h6, h7, h8⟩ := h
  simp [commandFromString, h1, h2, h3, h4, h5, h6, h7, h8]

theorem lookupField_eq_null_of_not_mem (fields : List (String × Json)) (key : String)
    (h : fields.any (fun p => p.1 == key) = false) :
    lookupField fields key = Json.null := by
  induction fields with
  | nil => rfl
  | cons p rest ih =>
      simp only [List.any_cons, Bool.or_eq_false_iff, beq_eq_false_iff_ne] at h
      simpa [lookupField, h.1] using ih (by simpa using h.2)

theorem getMember_eq_null_of_not_containsKey (doc : Json) (key : String)
    (h : doc.containsKey key = false) : doc.getMember key = Json.null := by
  cases doc with
  | obj fields => exact lookupField_eq_null_of_not_mem fields key h
  | null => rfl
  | str s => rfl
  | num n => rfl

/-- C5: decoding never succeeds on a message whose `type` is unrecognized or
missing, nor on a Command payload whose `command` string is unrecognized or
missing — `parseMessage` and `parseCommand` return failure (`none`, no
partially populated result) on every such document. Text that the JSON layer
cannot deserialize at all already fails before reaching these functions. -/
theorem parse_rejects_unrecognized (doc payload : Json) :
    ((doc.getMember "type").asString ∉ recognizedKinds → parseMessage doc = none) ∧
    (doc.containsKey "type" = false → parseMessage doc = none) ∧
    ((payload.getMember "command").asString ∉ recognizedCommands →
      parseCommand payload = none) ∧
    (payload.containsKey "command" = false → parseCommand payload = none) := by
  have hmsg : ∀ (d : Json), (d.getMember "type").asString ∉ recognizedKinds →
      parseMessage d = none := by
    intro d h
    simp [parseMessage, messageTypeFromString_eq_none _ h]
  have hcmd : ∀ (p : Json), (p.getMember "command").asString ∉ recognizedCommands →
      parseCommand p = none := by
    intro p h
    simp [parseCommand, commandFromString_eq_none _ h]
  refine ⟨hmsg doc, fun h => ?_, hcmd payload, fun h => ?_⟩
  · refine hmsg doc ?_
    rw [getMember_eq_null_of_not_containsKey doc "type" h]
    decide
  · refine hcmd payload ?_
    rw [getMember_eq_null_of_not_containsKey payload "command" h]
    decide

theorem parse_rejects_unrecognized_witness :
    parseMessage (Json.obj [("type", Json.str "bogus")]) = none ∧
    parseCommand (Json.obj [("command", Json.str "unknown_xyz")]) = none :=
  ⟨(parse_rejects_unrecognized (Json.obj [("type", Json.str "bogus")])
      (Json.obj [("command", Json.str "unknown_xyz")])).1 (by decide),
   (parse_rejects_unrecognized (Json.obj [("type", Json.str "bogus")])
      (Json.obj [("command", Json.str "unknown_xyz")])).2.2.1 (by decide)⟩

theorem string_eq_empty_of_length_eq_zero (s : String) (h : s.length = 0) : s = "" := by
  obtain ⟨l⟩ := s
  cases l with
  | nil => rfl
  | cons c cs => simp [String.length] at h

theorem roundtrip_command (env : ProtoEnv) (cmdStr data : String) (c : CommandType)
    (hc : commandFromString cmdStr = some c) :
    parseMessage (createCommandMessage env cmdStr data)
      = some (MessageType.MSG_COMMAND, (createCommandMessage env cmdStr data).removeMember "type") ∧
    parseCommand ((createCommandMessage env cmdStr data).removeMember "type")
      = some (c, data) := by
  by_cases hd : data.length > 0
  · simp [createCommandMessage, parseMessage, parseCommand, messageTypeFromString,
      Json.getMember, Json.asString, Json.removeMember, Json.containsKey, lookupField, hd, hc]
  · have hdata : data = "" := string_eq_empty_of_length_eq_zero data (by omega)
    subst hdata
    simp [createCommandMessage, parseMessage, parseCommand, messageTypeFromString,
      Json.getMember, Json.asString, Json.removeMember, Json.containsKey, lookupField, hc]

theorem statusFromString_statusToString (st : StatusType) :
    statusFromString (statusToString st) = some st := by
  cases st <;> rfl

theorem roundtrip_status (env : ProtoEnv) (st : StatusType) (data : String) :
    parseMessage (createStatusMessage env st data)
      = some (MessageType.MSG_STATUS, (createStatusMessage env st data).removeMember "type") ∧
    parseStatus ((createStatusMessage env st data).removeMember "type")
      = some (st, data) := by
  by_cases hd : data.length > 0
  · cases st <;>
      simp [createStatusMessage, parseMessage, parseStatus, messageTypeFromString,
        statusToString, statusFromString, Json.getMember, Json.asString, Json.removeMember,
        Json.containsKey, lookupField, hd]
  · have hdata : data = "" := string_eq_empty_of_length_eq_zero data (by omega)
    subst hdata
    cases st <;>
      simp [createStatusMessage, parseMessage, parseStatus, messageTypeFromString,
        statusToString, statusFromString, Json.getMember, Json.asString, Json.removeMember,
        Json.containsKey, lookupField]

theorem roundtrip_error (env : ProtoEnv) (e : ErrorCode) (desc : String) :
    parseMessage (createErrorMessage env e desc)
      = some (MessageType.MSG_ERROR, (createErrorMessage env e desc).removeMember "type") ∧
    ((createErrorMessage env e desc).removeMember "type").getMember "error_code"
      = Json.num (errorCodeToInt e) ∧
    ((createErrorMessage env e desc).removeMember "type").getMember "description"
      = Json.str (errorDescription e desc) := by
  simp [createErrorMessage, parseMessage, messageTypeFromString, Json.getMember,
    Json.asString, Json.removeMember, lookupField]

theorem roundtrip_heartbeat (env : ProtoEnv) :
    parseMessage (createHeartbeatMessage env)
      = some (MessageType.MSG_HEARTBEAT, (createHeartbeatMessage env).removeMember "type") ∧
    ((createHeartbeatMessage env).removeMember "type").getMember "uptime"
      = Json.num env.uptime ∧
    ((createHeartbeatMessage env).removeMember "type").getMember "free_heap"
      = Json.num env.freeHeap := by
  simp [createHeartbeatMessage, parseMessage, messageTypeFromString, Json.getMember,
    Json.asString, Json.removeMember, lookupField]

/-- C7: encoding a well-formed Command / Status / Error / Heartbeat message
with the corresponding `create*` function and decoding the result with
`parseMessage` (and `parseCommand` / `parseStatus` for the payload) reproduces
the message kind and the field values. The id / timestamp / battery gauges are
whatever `env` the encoding call sampled, and the payload carries exactly the
encoded fields, so only those environment reads can differ between two
encodings of the same message. -/
theorem protocol_roundtrip (env : ProtoEnv) (cmdStr data : String) (c : CommandType)
    (st : StatusType) (e : ErrorCode) (desc : String)
    (hc : commandFromString cmdStr = some c) :
    (parseMessage (createCommandMessage env cmdStr data)
        = some (MessageType.MSG_COMMAND,
            (createCommandMessage env cmdStr data).removeMember "type") ∧
      parseCommand ((createCommandMessage env cmdStr data).removeMember "type")
        = some (c, data)) ∧
    (parseMessage (createStatusMessage env st data)
        = some (MessageType.MSG_STATUS,
            (createStatusMessage env st data).removeMember "type") ∧
      parseStatus ((createStatusMessage env st data).removeMember "type")
        = some (st, data)) ∧
    (parseMessage (createErrorMessage env e desc)
        = some (MessageType.MSG_ERROR, (createErrorMessage env e desc).removeMember "type") ∧
      ((createErrorMessage env e desc).removeMember "type").getMember "error_code"
        = Json.num (errorCodeToInt e) ∧
      ((createErrorMessage env e desc).removeMember "type").getMember "description"
        = Json.str (errorDescription e desc)) ∧
    (parseMessage (createHeartbeatMessage env)
        = some (MessageType.MSG_HEARTBEAT, (createHeartbeatMessage env).removeMember "type") ∧
      ((createHeartbeatMessage env).removeMember "type").getMember "uptime"
        = Json.num env.uptime ∧
      ((createHeartbeatMessage env).removeMember "type").getMember "free_heap"
        = Json.num env.freeHeap) :=
  ⟨roundtrip_command env cmdStr data c hc, roundtrip_status env st data,
    roundtrip_error env e desc, roundtrip_heartbeat env⟩

theorem protocol_roundtrip_witness :
    parseCommand ((createCommandMessage
        ⟨"chip_1", 42, Json.null, 0, 0⟩ "start_recording" "payload").removeMember "type")
      = some (CommandType.CMD_START_RECORDING, "payload") :=
  (protocol_roundtrip ⟨"chip_1", 42, Json.null, 0, 0⟩ "start_recording" "payload"
      CommandType.CMD_START_RECORDING StatusType.STATUS_READY ErrorCode.ERROR_TIMEOUT ""
      (by decide)).1.2

/-!
BLEManager (`ble_manager.cpp`). `deviceConnected` and the characteristic
pointers are the fields consulted by the send paths; outbound
`setValue`+`notify` pairs are modelled as emitted documents. Because
`onDisconnect` can flip `deviceConnected` between loop iterations, the audio
send models the connection flag as a function of the chunk index; the source
reads it only at entry (index 0) and never re-checks it inside the loop.
-/

/-- The chunk sizes written by the `while (offset < length)` loop of
`BLEManager::sendAudioData` (`chunkSize = min(512, length - offset)`), plus a
fuel argument bounding the iteration count; `length` iterations always
suffice because each one advances `offset` by at least one byte. -/
def sendAudioLoop (length : Nat) : Nat → Nat → List Nat
  | _, 0 => []
  | offset, fuel + 1 =>
      if offset < length then
        min 512 (length - offset) :: sendAudioLoop length (offset + min 512 (length - offset)) fuel
      else []

/-- The `BLEManager::sendAudioData`: returns `false` writing nothing when the
entry check `!deviceConnected || !audioCharacteristic` fails; otherwise writes
every chunk and returns `true`. `connSeq i` is the value `deviceConnected`
holds just before chunk `i` is written; only `connSeq 0` is ever read. -/
def sendAudioData (connSeq : Nat → Bool) (audioOk : Bool) (length : Nat) :
    Bool × List Nat :=
  if ¬ connSeq 0 ∨ ¬ audioOk then (false, [])
  else (true, sendAudioLoop length 0 length)

/-- The `BLEManager::sendCommand`: `false` when the link is down or the command
characteristic is unavailable, else transmit the encoded command message. -/
def sendCommand (connected commandOk : Bool) (env : ProtoEnv) (command : String) :
    Bool × Option Json :=
  if ¬ connected ∨ ¬ commandOk then (false, none)
  else (true, some (createCommandMessage env command ""))

/-- The status-string-to-enum defaulting chain of `BLEManager::sendStatus`. -/
def statusTypeOfString (status : String) : StatusType :=
  if status = "recording" then StatusType.STATUS_RECORDING
  else if status = "processing" then StatusType.STATUS_PROCESSING
  else if status = "low_battery" then StatusType.STATUS_LOW_BATTERY
  else if status = "error" then StatusType.STATUS_ERROR
  else if status = "disconnected" then StatusType.STATUS_DISCONNECTED
  else StatusType.STATUS_READY

/-- The `BLEManager::sendStatus`: `false` when the link is down or the status
characteristic is unavailable, else transmit the encoded status message. -/
def sendStatus (connected statusOk : Bool) (env : ProtoEnv) (status : String) :
    Bool × Option Json :=
  if ¬ connected ∨ ¬ statusOk then (false, none)
  else (true, some (createStatusMessage env (statusTypeOfString status) ""))

/-- The `BLEManager::sendHeartbeat` (void): silently does nothing when the link is
down or the status characteristic is unavailable, else transmits the
heartbeat message. -/
def sendHeartbeat (connected statusOk : Bool) (env : ProtoEnv) : Option Json :=
  if ¬ connected ∨ ¬ statusOk then none
  else some (createHeartbeatMessage env)

/-- C8: every outbound send is a pure refusal when the link is not connected
or the relevant characteristic is unavailable: `sendCommand` and `sendStatus`
return `false` and transmit nothing, `sendHeartbeat` is a no-op — none of them
raises a hard error (they are total functions returning normally). -/
theorem sends_refuse_when_link_down (connected ok : Bool) (env : ProtoEnv)
    (command status : String) (h : ¬ (connected = true ∧ ok = true)) :
    sendCommand connected ok env command = (false, none) ∧
    sendStatus connected ok env status = (false, none) ∧
    sendHeartbeat connected ok env = none := by
  refine ⟨?_, ?_, ?_⟩ <;>
    · cases connected <;> cases ok <;> simp_all [sendCommand, sendStatus, sendHeartbeat]

theorem sends_refuse_when_link_down_witness :
    sendCommand false true ⟨"chip_1", 0, Json.null, 0, 0⟩ "ping" = (false, none) :=
  (sends_refuse_when_link_down false true ⟨"chip_1", 0, Json.null, 0, 0⟩ "ping" "ready"
      (by decide)).1

/-- C4 (amended): with a 1500-byte payload, `sendAudioData` called while
connected writes exactly the 3 chunks 512, 512, 476 in that order and returns
`true` — for every behaviour of the link after entry, because the loop never
re-reads `deviceConnected`; it returns failure with nothing written only when
the link is already down (or the audio characteristic missing) at call time. -/
theorem audio_1500_three_chunks (connSeq : Nat → Bool) (h0 : connSeq 0 = true) :
    sendAudioData connSeq true 1500 = (true, [512, 512, 476]) ∧
    (∀ (cs : Nat → Bool) (len : Nat), cs 0 = false →
      sendAudioData cs true len = (false, [])) := by
  constructor
  · simp only [sendAudioData, h0]
    norm_num
    decide
  · intro cs len hcs
    simp [sendAudioData, hcs]

theorem audio_1500_three_chunks_witness :
    sendAudioData (fun _ => true) true 1500 = (true, [512, 512, 476]) :=
  (audio_1500_three_chunks (fun _ => true) rfl).1

/-- C4 counterexample: when the link leaves the connected state after the
second chunk (`connSeq` is true for chunk indices 0 and 1 and false from
index 2 on), the transfer still writes the third 476-byte chunk and still
returns `true` — not the claimed failure with chunk 3 unsent; the loop in
`sendAudioData` checks the connection only before the first chunk. -/
theorem audio_midtransfer_drop_not_aborted :
    sendAudioData (fun i => decide (i < 2)) true 1500 = (true, [512, 512, 476]) ∧
    (true, ([512, 512, 476] : List Nat)).1 = true ∧
    ([512, 512, 476] : List Nat).length = 3 := by
  refine ⟨?_, rfl, rfl⟩
  simp only [sendAudioData]
  norm_num
  decide

/-- The observable effects of one inbound status-channel write: the command
handler calls dispatched (`handleCommand`), the status-update handler calls
(`handleStatusUpdate`), and the documents transmitted back out. -/
structure WriteEffect where
  handledCommands : List (CommandType × String)
  handledStatus : List (StatusType × String)
  outbound : List Json

/-- The `BLEManager::handleIncomingMessage`: route by message kind; a Command
payload whose `parseCommand` fails is dropped silently, an inbound heartbeat
is echoed, other kinds fall to the logging `default` arm. -/
def handleIncomingMessage (connected statusOk : Bool) (env : ProtoEnv)
    (msgType : MessageType) (payload : Json) : WriteEffect :=
  match msgType with
  | MessageType.MSG_COMMAND =>
      match parseCommand payload with
      | some (c, data) => ⟨[(c, data)], [], []⟩
      | none => ⟨[], [], []⟩
  | MessageType.MSG_STATUS =>
      match parseStatus payload with
      | some (st, data) => ⟨[], [(st, data)], []⟩
      | none => ⟨[], [], []⟩
  | MessageType.MSG_HEARTBEAT => ⟨[], [], (sendHeartbeat connected statusOk env).toList⟩
  | _ => ⟨[], [], []⟩

/-- The `BLEManager::onWrite` for a non-empty inbound value: `some doc` stands for
text the JSON layer deserializes to `doc`, `none` for text it rejects; on
parse failure the error message is built with `ERROR_INVALID_COMMAND` and the
literal description `"Invalid message format"` and notified on the status
characteristic unconditionally. -/
def onWrite (connected statusOk : Bool) (env : ProtoEnv) (value : Option Json) :
    WriteEffect :=
  match value.bind parseMessage with
  | some (t, payload) => handleIncomingMessage connected statusOk env t payload
  | none => ⟨[], [], [createErrorMessage env ErrorCode.ERROR_INVALID_COMMAND
      "Invalid message format"]⟩

/-- C6 (amended): an inbound status-channel write deserializing to
`type = "command", command = "unknown_xyz"` dispatches no handler and sends
nothing back (forward-compatible ignore), while one deserializing to
`type = "bogus"` dispatches no handler and produces exactly one outbound
Error message, whose `description` field is the string
`"Invalid message format"` (capital I) and whose code is
`ERROR_INVALID_COMMAND`. -/
theorem onWrite_unknown_command_vs_bogus_type (connected statusOk : Bool) (env : ProtoEnv) :
    (onWrite connected statusOk env
        (some (Json.obj [("type", Json.str "command"), ("command", Json.str "unknown_xyz")]))
      = ⟨[], [], []⟩) ∧
    ((onWrite connected statusOk env (some (Json.obj [("type", Json.str "bogus")]))).handledCommands
        = [] ∧
      (onWrite connected statusOk env (some (Json.obj [("type", Json.str "bogus")]))).handledStatus
        = [] ∧
      (onWrite connected statusOk env (some (Json.obj [("type", Json.str "bogus")]))).outbound
        = [createErrorMessage env ErrorCode.ERROR_INVALID_COMMAND "Invalid message format"] ∧
      ((createErrorMessage env ErrorCode.ERROR_INVALID_COMMAND
          "Invalid message format").getMember "description")
        = Json.str "Invalid message format") := by
  refine ⟨?_, ?_, ?_, ?_, ?_⟩
  · simp [onWrite, parseMessage, messageTypeFromString, handleIncomingMessage, parseCommand,
      commandFromString, Json.getMember, Json.asString, Json.removeMember, Json.containsKey,
      lookupField]
  · simp [onWrite, parseMessage, messageTypeFromString, Json.getMember, Json.asString,
      lookupField]
  · simp [onWrite, parseMessage, messageTypeFromString, Json.getMember, Json.asString,
      lookupField]
  · simp [onWrite, parseMessage, messageTypeFromString, Json.getMember, Json.asString,
      lookupField]
  · simp [createErrorMessage, errorDescription, Json.getMember, lookupField]
    decide

/-- C6 counterexample: for the `type = "bogus"` write the single outbound
Error message carries the description `"Invalid message format"`, which is not
the claimed string `"invalid message format"` — the description text of the claim
fails on the code (the code capitalizes the first letter). -/
theorem onWrite_bogus_description_capitalized :
    ((onWrite true true ⟨"chip_1", 0, Json.null, 0, 0⟩
        (some (Json.obj [("type", Json.str "bogus")]))).outbound.map
      (fun m => (m.getMember "description").asString)) = ["Invalid message format"] ∧
    "Invalid message format" ≠ "invalid message format" := by
  constructor
  · simp [onWrite, parseMessage, messageTypeFromString, Json.getMember, Json.asString,
      lookupField, createErrorMessage, errorDescription]
    decide
  · decide

/-!
Audio hex codec (`Protocol::encodeAudioData` / `Protocol::decodeAudioData`).
Arduino `String`s are modelled as `List Char`; `String(b, HEX)` for a
`uint8_t` prints lowercase hex without padding, and the loop splices in a '0'
before the last character for bytes below 16.
-/

/-- A lowercase hexadecimal digit character ('0'-'9', 'a'-'f'). -/
def hexChar (n : Nat) : Char :=
  if n < 10 then Char.ofNat (48 + n) else Char.ofNat (87 + n)

/-- Arduino `String(b, HEX)` for a byte value: one digit below 16, two
digits otherwise. -/
def stringHexByte (b : Nat) : List Char :=
  if b < 16 then [hexChar b] else [hexChar (b / 16), hexChar (b % 16)]

/-- The `for` loop of `Protocol::encodeAudioData` over the remaining bytes,
with `i` the running index and `encoded` the accumulated text: a newline every
64 bytes, then the hex text of the byte, then — for bytes below 16 — the
splice `encoded.substring(0, len-1) + "0" + encoded.substring(len-1)`. -/
def encodeAudioLoop : List Nat → Nat → List Char → List Char
  | [], _, encoded => encoded
  | b :: rest, i, encoded =>
      let encoded1 := if 0 < i ∧ i % 64 = 0 then encoded ++ ['\n'] else encoded
      let encoded2 := encoded1 ++ stringHexByte b
      let encoded3 :=
        if b < 16 then
          encoded2.take (encoded2.length - 1) ++ ['0'] ++ encoded2.drop (encoded2.length - 1)
        else encoded2
      encodeAudioLoop rest (i + 1) encoded3

/-- The `Protocol::encodeAudioData` on byte buffer `data`. -/
def encodeAudioData (data : List Nat) : List Char :=
  encodeAudioLoop data 0 []

/-- The numeric value `strtol` assigns to a single character in base 16
(`none` for a non-hex character, where `strtol` stops). -/
def hexVal (c : Char) : Option Nat :=
  if 48 ≤ c.toNat ∧ c.toNat ≤ 57 then some (c.toNat - 48)
  else if 97 ≤ c.toNat ∧ c.toNat ≤ 102 then some (c.toNat - 87)
  else if 65 ≤ c.toNat ∧ c.toNat ≤ 70 then some (c.toNat - 55)
  else none

/-- The `strtol(s, NULL, 16)` on a two-character string: parse stops at the first
non-hex character (yielding 0 if that is the first character). -/
def strtol2 (c1 c2 : Char) : Nat :=
  match hexVal c1 with
  | none => 0
  | some h =>
      match hexVal c2 with
      | none => h
      | some l => h * 16 + l

/-- The byte-writing loop of `Protocol::decodeAudioData`: one byte per pair of
cleaned characters (`length = cleaned.length / 2` pairs). -/
def decodePairs : List Char → List Nat
  | c1 :: c2 :: rest => strtol2 c1 c2 :: decodePairs rest
  | _ => []

/-- The `Protocol::decodeAudioData`: strip newlines and spaces, reject an
odd-length hex text, else produce the decoded bytes and their count. -/
def decodeAudioData (encoded : List Char) : Option (List Nat) :=
  let cleaned := encoded.filter (fun ch => ch != '\n' && ch != ' ')
  if cleaned.length % 2 ≠ 0 then none
  else some (decodePairs cleaned)

/-- The two hex characters a byte below 256 contributes to the encoding. -/
def hexPair (b : Nat) : List Char :=
  [hexChar (b / 16), hexChar (b % 16)]

theorem splice_zero (l : List Char) (c : Char) :
    (l ++ [c]).take ((l ++ [c]).length - 1) ++ ['0'] ++ (l ++ [c]).drop ((l ++ [c]).length - 1)
      = l ++ ['0', c] := by
  have hlen : (l ++ [c]).length - 1 = l.length := by simp
  rw [hlen, List.take_left, List.drop_left]
  simp

theorem hexChar_not_separator (m : Nat) (hm : m < 16) :
    (hexChar m != '\n' && hexChar m != ' ') = true := by
  interval_cases m <;> decide

theorem filter_hexPair (b : Nat) (hb : b < 256) :
    (hexPair b).filter (fun ch => ch != '\n' && ch != ' ') = hexPair b := by
  have h1 := hexChar_not_separator (b / 16) (by omega)
  have h2 := hexChar_not_separator (b % 16) (by omega)
  simp [hexPair, List.filter, h1, h2]

theorem encodeAudioLoop_step (b : Nat) (rest : List Nat) (i : Nat) (encoded : List Char) :
    encodeAudioLoop (b :: rest) i encoded
      = encodeAudioLoop rest (i + 1)
          ((if 0 < i ∧ i % 64 = 0 then encoded ++ ['\n'] else encoded) ++ hexPair b) := by
  by_cases hlt : b < 16
  · have hdiv : b / 16 = 0 := Nat.div_eq_of_lt hlt
    have hmod : b % 16 = b := Nat.mod_eq_of_lt hlt
    have hzero : hexChar 0 = '0' := by decide
    simp only [encodeAudioLoop, stringHexByte, if_pos hlt, splice_zero, hexPair, hdiv, hmod,
      hzero]
  · simp only [encodeAudioLoop, stringHexByte, if_neg hlt, hexPair]

theorem encodeAudioLoop_filter (data : List Nat) (hb : ∀ b ∈ data, b < 256) :
    ∀ (i : Nat) (enc : List Char),
      (encodeAudioLoop data i enc).filter (fun ch => ch != '\n' && ch != ' ')
        = enc.filter (fun ch => ch != '\n' && ch != ' ') ++ data.flatMap hexPair := by
  induction data with
  | nil => intro i enc; simp [encodeAudioLoop]
  | cons b rest ih =>
      intro i enc
      have hb0 : b < 256 := hb b (List.mem_cons_self b rest)
      have hbr : ∀ x ∈ rest, x < 256 := fun x hx => hb x (List.mem_cons_of_mem b hx)
      rw [encodeAudioLoop_step b rest i enc, ih hbr (i + 1)]
      by_cases hi : 0 < i ∧ i % 64 = 0
      · simp [hi, List.filter_append, filter_hexPair b hb0]
      · simp [hi, List.filter_append, filter_hexPair b hb0]

theorem strtol2_hexPair (b : Nat) (hb : b < 256) :
    strtol2 (hexChar (b / 16)) (hexChar (b % 16)) = b := by
  have h1 : b / 16 < 16 := by omega
  have h2 : b % 16 < 16 := by omega
  have hv : ∀ (m : Nat), m < 16 → hexVal (hexChar m) = some m := by
    intro m hm
    interval_cases m <;> decide
  simp [strtol2, hv (b / 16) h1, hv (b % 16) h2]
  omega

theorem decodePairs_flatMap (data : List Nat) (hb : ∀ b ∈ data, b < 256) :
    decodePairs (data.flatMap hexPair) = data := by
  induction data with
  | nil => rfl
  | cons b rest ih =>
      have hb0 : b < 256 := hb b (List.mem_cons_self b rest)
      have hbr : ∀ x ∈ rest, x < 256 := fun x hx => hb x (List.mem_cons_of_mem b hx)
      have hstep : (b :: rest).flatMap hexPair
          = hexChar (b / 16) :: hexChar (b % 16) :: rest.flatMap hexPair := by
        simp [List.flatMap_cons, hexPair]
      rw [hstep]
      show strtol2 (hexChar (b / 16)) (hexChar (b % 16)) :: decodePairs (rest.flatMap hexPair)
        = b :: rest
      rw [strtol2_hexPair b hb0, ih hbr]

theorem flatMap_hexPair_length (data : List Nat) :
    (data.flatMap hexPair).length = 2 * data.length := by
  induction data with
  | nil => rfl
  | cons b rest ih =>
      simp [List.flatMap_cons, hexPair, ih]
      omega

/-- C10: for every byte buffer, decoding the encoding succeeds and yields
exactly the original bytes — in particular the original length
(`cleaned.length / 2 = data.length`). The hypothesis `b < 256` states that the
buffer holds `uint8_t` values. -/
theorem audio_encode_decode_roundtrip (data : List Nat) (hb : ∀ b ∈ data, b < 256) :
    decodeAudioData (encodeAudioData data) = some data := by
  have hfilter := encodeAudioLoop_filter data hb 0 []
  simp only [List.filter_nil, List.nil_append] at hfilter
  unfold decodeAudioData encodeAudioData
  rw [hfilter]
  show (if (data.flatMap hexPair).length % 2 ≠ 0 then none
      else some (decodePairs (data.flatMap hexPair))) = some data
  rw [flatMap_hexPair_length]
  simp [Nat.mul_mod_right, decodePairs_flatMap data hb]

theorem audio_encode_decode_roundtrip_witness :
    decodeAudioData (encodeAudioData [0, 15, 16, 171, 255]) = some [0, 15, 16, 171, 255] :=
  audio_encode_decode_roundtrip [0, 15, 16, 171, 255] (by decide)
